import Mathlib

/-
Verification of the two incremental scanner scripts of the keyrx repository:
  .claude-flow/scripts/optimize-worker.py   (Optimization Scanner)
  .claude-flow/scripts/testgaps-worker.py   (Test-Gap Scanner)

The embedding is shallow.  The regex engine is abstracted as a function
from pattern and file content to a match count (the scripts only ever use
the length of re.findall), the file system under a unit directory is
abstracted as the list of contents of the files the scripts would read,
and the on-disk rotation state is passed explicitly.  Timestamps and
printed progress text are not modelled: no claim concerns them.
-/

/-- One step of substring matching over character lists: does the first
list occur at the head of the second. -/
def subAt : List Char → List Char → Bool
  | [], _ => true
  | _ :: _, [] => false
  | a :: as, b :: bs => a == b && subAt as bs

/-- Does the first character list occur anywhere inside the second. -/
def hasSub (sub : List Char) : List Char → Bool
  | [] => subAt sub []
  | c :: rest => subAt sub (c :: rest) || hasSub sub rest

/-- Model of the Python membership test for strings: strContains s sub
means the Python expression sub in s. -/
def strContains (s sub : String) : Bool := hasSub sub.data s.data

/-- Model of the Python str.lower method for the ASCII names this
repository uses: lowercase every character. -/
def pyLower (s : String) : String := String.mk (s.data.map Char.toLower)

/-- Abstract regex engine: a matcher sends a pattern and a file content
to the number of matches, modelling len(re.findall(pattern, content)). -/
def Matcher : Type := String → String → Nat

/-- Regex used for clone calls (optimize-worker.py line 89). -/
def clonePattern : String := "\\.clone\\(\\)"

/-- Regex used for string allocations (optimize-worker.py line 101). -/
def stringAllocPattern : String := "String::from|to_string\\(\\)"

/-- Regex used for N plus one query patterns (optimize-worker.py line 113). -/
def nPlusOnePattern : String := "(for|while).*\\.(query|execute)"

/-- Regex used for callback-like declarations (optimize-worker.py line 128). -/
def callbackPattern : String := "(function|const\\s+\\w+\\s*=)"

/-- Regex used for memoized calls (optimize-worker.py line 129). -/
def memoizedPattern : String := "(useCallback|useMemo|React\\.memo)"

/-- Regex used for inline objects in JSX (optimize-worker.py line 141). -/
def inlineObjectsPattern : String := "=\\\x7b|\\=\\["

/-- Regex used for async function declarations (optimize-worker.py line 153). -/
def asyncFnPattern : String := "async (fn|function)"

/-- Regex used for await expressions (optimize-worker.py line 154). -/
def awaitPattern : String := "\\bawait\\b"

/-- Model of count_patterns (optimize-worker.py lines 59-69): the files of
the module directory are given by their contents; the total count is the
sum of the per-file match counts.  Unreadable files are those the script
silently skips; they contribute nothing and are simply absent from the
list. -/
def count_patterns (m : Matcher) (files : List String) (pattern : String) : Nat :=
  (files.map fun content => m pattern content).sum

/-- One suggestion or gap object as appended to the advisory list: a type
tag, a severity, an optional count field and the templated message. -/
structure Advisory where
  type : String
  severity : String
  count : Option Nat
  suggestion : String
deriving Repr, DecidableEq

/-- Abstraction of the file system under one module directory of the
Optimization Scanner: whether the directory exists, and the contents of
the readable source files (extensions .rs .ts .tsx .js .jsx) under it. -/
structure OptModuleFS where
  pathExists : Bool
  files : List String
deriving Repr

/-- The dictionary returned by analyze_module (optimize-worker.py lines
75-80 and 186-192): either the early failure object or the success
object.  The message string of the success object is derived text and is
not modelled. -/
inductive OptReturn where
  | failure (module : String) (error : String)
  | success (module : String) (suggestionCount : Nat) (metrics : List (String × Nat))
deriving Repr, DecidableEq

/-- The success flag read by main via result.get("success", False). -/
def OptReturn.successFlag : OptReturn → Bool
  | .failure _ _ => false
  | .success _ _ _ => true

/-- One JSON record of the optimize results log (optimize-worker.py lines
166-172); the timestamp is not modelled. -/
structure OptRecord where
  module : String
  suggestionCount : Nat
  suggestions : List Advisory
  metrics : List (String × Nat)
deriving Repr, DecidableEq

/-- The full observable effect of one call to analyze_module: the value
returned to main, the suggestion list built during analysis, and the list
of records appended to the results log during the call. -/
structure OptRun where
  ret : OptReturn
  suggestions : List Advisory
  appended : List OptRecord
deriving Repr

/-- The suggestion list built by analyze_module (optimize-worker.py lines
84-163).  Each rule appends zero or one advisory; the React-specific
rules (missing-memoization and inline-objects, lines 124-149) run only
when the lowercased module name contains "ui".  The Python comparisons
memoized < callbacks / 4 and the likes use exact rational division, so
they are rendered by cross-multiplication. -/
def optSuggestions (m : Matcher) (files : List String) (module_name : String) : List Advisory :=
  (if 50 < count_patterns m files clonePattern then
    [⟨ "excessive-clones", "medium", some (count_patterns m files clonePattern),
       "Found " ++ toString (count_patterns m files clonePattern) ++ " .clone() calls. Review for unnecessary memory allocations."⟩]
   else [])
  ++ (if 100 < count_patterns m files stringAllocPattern then
    [⟨ "string-allocations", "low", some (count_patterns m files stringAllocPattern),
       "Found " ++ toString (count_patterns m files stringAllocPattern) ++ " string allocations. Consider using &str or Cow<str>."⟩]
   else [])
  ++ (if 0 < count_patterns m files nPlusOnePattern then
    [⟨ "n+1-query", "high", some (count_patterns m files nPlusOnePattern),
       "Found " ++ toString (count_patterns m files nPlusOnePattern) ++ " potential N+1 query patterns. Use batch queries or joins."⟩]
   else [])
  ++ (if strContains (pyLower module_name) "ui" = true ∧
        (20 < count_patterns m files callbackPattern ∧
         4 * count_patterns m files memoizedPattern < count_patterns m files callbackPattern) then
    [⟨ "missing-memoization", "medium", none,
       "Only " ++ toString (count_patterns m files memoizedPattern) ++ " memoized out of " ++ toString (count_patterns m files callbackPattern) ++ " functions. Use useCallback/useMemo."⟩]
   else [])
  ++ (if strContains (pyLower module_name) "ui" = true ∧
        50 < count_patterns m files inlineObjectsPattern then
    [⟨ "inline-objects", "low", some (count_patterns m files inlineObjectsPattern),
       "Found " ++ toString (count_patterns m files inlineObjectsPattern) ++ " inline objects/arrays. May cause re-renders."⟩]
   else [])
  ++ (if 10 < count_patterns m files asyncFnPattern ∧
        count_patterns m files asyncFnPattern * 5 < count_patterns m files awaitPattern then
    [⟨ "sequential-awaits", "medium", none,
       "Potential sequential awaits detected. Consider Promise.all() for parallel operations."⟩]
   else [])

/-- The metrics mapping built by analyze_module, in insertion order: the
React metrics are only recorded for units whose lowercased name contains
"ui" (optimize-worker.py lines 90, 102, 114, 130-131, 142, 155-156). -/
def optMetrics (m : Matcher) (files : List String) (module_name : String) : List (String × Nat) :=
  [("clones", count_patterns m files clonePattern),
   ("string_allocations", count_patterns m files stringAllocPattern),
   ("potential_n_plus_one", count_patterns m files nPlusOnePattern)]
  ++ (if strContains (pyLower module_name) "ui" = true then
    [("callbacks", count_patterns m files callbackPattern),
     ("memoized", count_patterns m files memoizedPattern),
     ("inline_objects", count_patterns m files inlineObjectsPattern)]
   else [])
  ++ [("async_functions", count_patterns m files asyncFnPattern),
      ("awaits", count_patterns m files awaitPattern)]

/-- Model of analyze_module (optimize-worker.py lines 71-192).  When the
module directory does not exist the function returns the failure object
at once (lines 75-80), before the append to the results file (lines
174-176), so no record is appended on that path.  On the success path
exactly one record is appended. -/
def analyze_module (m : Matcher) (fs : OptModuleFS) (module_name : String) : OptRun :=
  if fs.pathExists = true then
    { ret := .success module_name (optSuggestions m fs.files module_name).length (optMetrics m fs.files module_name),
      suggestions := optSuggestions m fs.files module_name,
      appended := [⟨ module_name, (optSuggestions m fs.files module_name).length,
                     optSuggestions m fs.files module_name, optMetrics m fs.files module_name⟩] }
  else
    { ret := .failure module_name "Module not found", suggestions := [], appended := [] }

/-- The hard-coded module list of the Optimization Scanner
(optimize-worker.py lines 33-38). -/
def MODULES : List String := ["keyrx_core", "keyrx_daemon", "keyrx_compiler", "keyrx_ui/src"]

/-- The persisted rotation state of the Optimization Scanner
(optimize-worker.py lines 40-57): the current index as loaded from JSON
(an arbitrary integer) and the completed-modules list. -/
structure OptState where
  current_index : Int
  completed_modules : List String
deriving Repr

/-- The initial state written by get_state on first run
(optimize-worker.py lines 42-49). -/
def initialOptState : OptState := ⟨0, []⟩

/-- Python list indexing with an integer index: nonnegative indices read
from the front, indices in [-len, 0) read from the back, anything else
raises IndexError (modelled as none). -/
def pyIndex {α : Type} (l : List α) (i : Int) : Option α :=
  if 0 ≤ i then l.get? i.toNat
  else if -(l.length : Int) ≤ i then l.get? (i + l.length).toNat
  else none

/-- Outcome of one invocation of the Optimization Scanner main: either an
uncaught IndexError from the unit selection (no state is saved), or a
completed run carrying the selected module, the analysis effect, the
saved state and the process exit code. -/
inductive OptOutcome where
  | indexError
  | completed (selected : String) (run : OptRun) (saved : OptState) (exitCode : Nat)

/-- Model of main (optimize-worker.py lines 194-221): load state, wrap
the index to 0 when it is at least len(MODULES), select the module by
Python indexing, analyze, advance the index modulo len(MODULES) with the
Python remainder (always nonnegative for a positive modulus), record the
module as completed, save, and exit 0 on success and 1 otherwise.  The
environment env gives the file system under each module directory. -/
def optMain (m : Matcher) (env : String → OptModuleFS) (st : OptState) : OptOutcome :=
  let ci : Int := if (MODULES.length : Int) ≤ st.current_index then 0 else st.current_index
  match pyIndex MODULES ci with
  | none => .indexError
  | some module_name =>
    let run := analyze_module m (env module_name) module_name
    let saved : OptState :=
      { current_index := (ci + 1) % (MODULES.length : Int),
        completed_modules :=
          if st.completed_modules.contains module_name then st.completed_modules
          else st.completed_modules ++ [module_name] }
    .completed module_name run saved (if run.ret.successFlag then 0 else 1)

/-- Iterated invocation of the Optimization Scanner, threading the saved
state, collecting the selected modules in order; none when some
invocation ends in IndexError. -/
def optIterate (m : Matcher) (env : String → OptModuleFS) : Nat → OptState → Option (List String × OptState)
  | 0, st => some ([], st)
  | Nat.succ k, st =>
    match optMain m env st with
    | .indexError => none
    | .completed name _ saved _ =>
      match optIterate m env k saved with
      | none => none
      | some (names, fin) => some (name :: names, fin)

/-- Regex used for public function declarations (testgaps-worker.py line 119). -/
def pubFnPattern : String := "pub\\s+fn\\s+"

/-- Regex used for test attributes (testgaps-worker.py line 120). -/
def testAttrPattern : String := "#\\[test\\]"

/-- Regex used for fallible result types (testgaps-worker.py line 134). -/
def resultPattern : String := "Result<"

/-- Regex used for error-path test assertions (testgaps-worker.py line 135). -/
def errorTestPattern : String := "(should_panic|expect_err|is_err|unwrap_err)"

/-- Regex used for documentation example blocks (testgaps-worker.py line 162). -/
def docTestPattern : String := "```rust"

/-- Model of count_in_files (testgaps-worker.py lines 58-71): the files
are given by their contents and the total is the sum of the per-file
match counts; unreadable files contribute nothing. -/
def count_in_files (m : Matcher) (files : List String) (pattern : String) : Nat :=
  (files.map fun content => m pattern content).sum

/-- Model of count_lines (testgaps-worker.py lines 84-96): lc sends a
file content to its splitlines length, and the total is the sum over the
files. -/
def count_lines (lc : String → Nat) (files : List String) : Nat :=
  (files.map lc).sum

/-- Abstraction of the file system under one crate directory of the
Test-Gap Scanner: whether the crate directory exists, the contents of the
readable .rs files under src and under tests, whether the tests directory
exists, and the number of .rs files counted by count_files under tests. -/
structure CrateFS where
  crateExists : Bool
  srcFiles : List String
  testsExists : Bool
  testsFiles : List String
  testsFileCount : Nat
deriving Repr

/-- The dictionary returned by analyze_crate (testgaps-worker.py lines
102-107 and 207-214); the derived message string is not modelled. -/
inductive TgReturn where
  | failure (crate : String) (error : String)
  | success (crate : String) (gapCount : Nat) (estimatedCoverage : Nat) (metrics : List (String × Nat))
deriving Repr, DecidableEq

/-- The success flag read by main via result.get("success", False). -/
def TgReturn.successFlag : TgReturn → Bool
  | .failure _ _ => false
  | .success _ _ _ _ => true

/-- One JSON record of the testgaps results log (testgaps-worker.py lines
185-192); the timestamp is not modelled. -/
structure GapRecord where
  crate : String
  gapCount : Nat
  estimatedCoverage : Nat
  gaps : List Advisory
  metrics : List (String × Nat)
deriving Repr, DecidableEq

/-- The full observable effect of one call to analyze_crate. -/
structure TgRun where
  ret : TgReturn
  gaps : List Advisory
  estimatedCoverage : Nat
  appended : List GapRecord
deriving Repr

/-- The coverage estimate of testgaps-worker.py line 178: floor integer
division of test_lines * 100 by source_lines, and 0 when source_lines is
0.  Nat division in Lean is the same floor division as the Python
operator on nonnegative integers. -/
def estimatedCoverage (source_lines test_lines : Nat) : Nat :=
  if 0 < source_lines then test_lines * 100 / source_lines else 0

/-- The file list the Test-Gap Scanner reads under tests: empty when the
tests directory does not exist (rglob over a missing path yields
nothing). -/
def tgTestFiles (fs : CrateFS) : List String :=
  if fs.testsExists then fs.testsFiles else []

/-- The gap list built by analyze_crate (testgaps-worker.py lines
117-171).  The Python comparisons test_fn_count < pub_fn_count / 2 and
error_test_count < result_count / 3 use exact rational division and are
rendered by cross-multiplication. -/
def tgGaps (m : Matcher) (fs : CrateFS) : List Advisory :=
  (if 0 < count_in_files m fs.srcFiles pubFnPattern ∧
      2 * count_in_files m (tgTestFiles fs) testAttrPattern < count_in_files m fs.srcFiles pubFnPattern then
    [⟨ "untested-functions", "high", none,
       toString (count_in_files m fs.srcFiles pubFnPattern) ++ " public functions but only " ++ toString (count_in_files m (tgTestFiles fs) testAttrPattern) ++ " tests. Add more unit tests."⟩]
   else [])
  ++ (if 0 < count_in_files m fs.srcFiles resultPattern ∧
      3 * count_in_files m (tgTestFiles fs) errorTestPattern < count_in_files m fs.srcFiles resultPattern then
    [⟨ "missing-error-tests", "high", none,
       toString (count_in_files m fs.srcFiles resultPattern) ++ " Result types but only " ++ toString (count_in_files m (tgTestFiles fs) errorTestPattern) ++ " error tests. Add error path testing."⟩]
   else [])
  ++ (if (if fs.testsExists then fs.testsFileCount else 0) < 3 then
    [⟨ "missing-integration-tests", "medium", none,
       "Only " ++ toString (if fs.testsExists then fs.testsFileCount else 0) ++ " integration test files. Add more end-to-end tests."⟩]
   else [])
  ++ (if count_in_files m fs.srcFiles docTestPattern < 5 then
    [⟨ "missing-doc-tests", "low", none,
       "Only " ++ toString (count_in_files m fs.srcFiles docTestPattern) ++ " documentation tests. Add examples to public APIs."⟩]
   else [])

/-- The source line count used by analyze_crate (testgaps-worker.py line 175). -/
def tgSourceLines (lc : String → Nat) (fs : CrateFS) : Nat := count_lines lc fs.srcFiles

/-- The test line count used by analyze_crate (testgaps-worker.py line
176): zero when the tests directory does not exist. -/
def tgTestLines (lc : String → Nat) (fs : CrateFS) : Nat :=
  if fs.testsExists then count_lines lc fs.testsFiles else 0

/-- The metrics mapping built by analyze_crate, in insertion order
(testgaps-worker.py lines 122-123, 137-138, 151, 164, 180-182). -/
def tgMetrics (m : Matcher) (lc : String → Nat) (fs : CrateFS) : List (String × Nat) :=
  [("public_functions", count_in_files m fs.srcFiles pubFnPattern),
   ("test_functions", count_in_files m (tgTestFiles fs) testAttrPattern),
   ("result_types", count_in_files m fs.srcFiles resultPattern),
   ("error_tests", count_in_files m (tgTestFiles fs) errorTestPattern),
   ("integration_tests", if fs.testsExists then fs.testsFileCount else 0),
   ("doc_tests", count_in_files m fs.srcFiles docTestPattern),
   ("source_lines", tgSourceLines lc fs),
   ("test_lines", tgTestLines lc fs),
   ("estimated_coverage", estimatedCoverage (tgSourceLines lc fs) (tgTestLines lc fs))]

/-- Model of analyze_crate (testgaps-worker.py lines 98-214).  When the
crate directory does not exist the function returns the failure object at
once (lines 102-107), before the append to the results file (lines
195-196), so no record is appended on that path.  On the success path
exactly one record is appended. -/
def analyze_crate (m : Matcher) (lc : String → Nat) (fs : CrateFS) (crate_name : String) : TgRun :=
  if fs.crateExists = true then
    { ret := .success crate_name (tgGaps m fs).length
               (estimatedCoverage (tgSourceLines lc fs) (tgTestLines lc fs)) (tgMetrics m lc fs),
      gaps := tgGaps m fs,
      estimatedCoverage := estimatedCoverage (tgSourceLines lc fs) (tgTestLines lc fs),
      appended := [⟨ crate_name, (tgGaps m fs).length,
                     estimatedCoverage (tgSourceLines lc fs) (tgTestLines lc fs),
                     tgGaps m fs, tgMetrics m lc fs⟩] }
  else
    { ret := .failure crate_name "Crate not found", gaps := [], estimatedCoverage := 0, appended := [] }

/-- The hard-coded crate list of the Test-Gap Scanner (testgaps-worker.py
lines 33-37). -/
def CRATES : List String := ["keyrx_core", "keyrx_daemon", "keyrx_compiler"]

/-- The persisted rotation state of the Test-Gap Scanner
(testgaps-worker.py lines 39-56). -/
structure TgState where
  current_index : Int
  completed_crates : List String
deriving Repr

/-- The initial state written by get_state on first run
(testgaps-worker.py lines 41-48). -/
def initialTgState : TgState := ⟨0, []⟩

/-- Outcome of one invocation of the Test-Gap Scanner main. -/
inductive TgOutcome where
  | indexError
  | completed (selected : String) (run : TgRun) (saved : TgState) (exitCode : Nat)

/-- Model of main (testgaps-worker.py lines 216-243), structurally the
same skeleton as the Optimization Scanner main with CRATES in place of
MODULES. -/
def tgMain (m : Matcher) (lc : String → Nat) (env : String → CrateFS) (st : TgState) : TgOutcome :=
  let ci : Int := if (CRATES.length : Int) ≤ st.current_index then 0 else st.current_index
  match pyIndex CRATES ci with
  | none => .indexError
  | some crate_name =>
    let run := analyze_crate m lc (env crate_name) crate_name
    let saved : TgState :=
      { current_index := (ci + 1) % (CRATES.length : Int),
        completed_crates :=
          if st.completed_crates.contains crate_name then st.completed_crates
          else st.completed_crates ++ [crate_name] }
    .completed crate_name run saved (if run.ret.successFlag then 0 else 1)

/-- Iterated invocation of the Test-Gap Scanner, threading the saved
state. -/
def tgIterate (m : Matcher) (lc : String → Nat) (env : String → CrateFS) : Nat → TgState → Option (List String × TgState)
  | 0, st => some ([], st)
  | Nat.succ k, st =>
    match tgMain m lc env st with
    | .indexError => none
    | .completed name _ saved _ =>
      match tgIterate m lc env k saved with
      | none => none
      | some (names, fin) => some (name :: names, fin)

/-- Number of advisories of a given type tag in a list. -/
def countType (t : String) (l : List Advisory) : Nat :=
  (l.filter fun a => a.type == t).length

/-- A matcher with no matches anywhere, for concrete instantiations. -/
def zeroMatcher : Matcher := fun _ _ => 0

/-- A line counter returning zero, for concrete instantiations. -/
def zeroLines : String → Nat := fun _ => 0

/-- An environment in which no module directory exists. -/
def missingEnv : String → OptModuleFS := fun _ => ⟨false, []⟩

/-- An environment in which no crate directory exists. -/
def missingCrateEnv : String → CrateFS := fun _ => ⟨false, [], false, [], 0⟩

/-- An environment in which every module directory exists and is empty. -/
def emptyEnv : String → OptModuleFS := fun _ => ⟨true, []⟩

/-- An environment in which every crate directory exists and is empty. -/
def emptyCrateEnv : String → CrateFS := fun _ => ⟨true, [], true, [], 0⟩

/-- A matcher measuring 51 matches of the inline-objects pattern in each
file and nothing else, for the C2 counterexample. -/
def inlineMatcher : Matcher := fun pattern _ => if pattern = inlineObjectsPattern then 51 else 0

/-- A matcher measuring 51 matches of the clone pattern in each file and
nothing else, for the excessive-clones scenario. -/
def cloneMatcher51 : Matcher := fun pattern _ => if pattern = clonePattern then 51 else 0

/-- A matcher measuring 10 public functions per src file and 2 tests per
tests file content, for the first untested-functions scenario. -/
def tgMatcherA : Matcher := fun pattern _ =>
  if pattern = pubFnPattern then 10 else if pattern = testAttrPattern then 2 else 0

/-- A matcher measuring 10 public functions per src file and 6 tests per
tests file content, for the second untested-functions scenario. -/
def tgMatcherB : Matcher := fun pattern _ =>
  if pattern = pubFnPattern then 10 else if pattern = testAttrPattern then 6 else 0

/-- A crate file system with one src file and one tests file, for the
untested-functions scenarios. -/
def crateFS1 : CrateFS := ⟨true, ["s"], true, ["t"], 3⟩

/-- A matcher whose per-file counts put every rule of the Optimization
Scanner just past its threshold on a ui unit with one file, for the
monotonicity witnesses. -/
def monoMatcher : Matcher := fun p _ =>
  if p = clonePattern then 51 else
  if p = stringAllocPattern then 101 else
  if p = nPlusOnePattern then 1 else
  if p = callbackPattern then 21 else
  if p = memoizedPattern then 0 else
  if p = inlineObjectsPattern then 51 else
  if p = asyncFnPattern then 11 else
  if p = awaitPattern then 56 else 0

/-- A matcher whose per-file counts put every rule of the Test-Gap
Scanner just past its threshold on a crate with one src file and one
tests file, for the monotonicity witnesses. -/
def tgMonoMatcher : Matcher := fun p _ =>
  if p = pubFnPattern then 10 else
  if p = testAttrPattern then 2 else
  if p = resultPattern then 9 else
  if p = errorTestPattern then 1 else
  if p = docTestPattern then 4 else 0

/-- A crate file system with one src file, one tests file and two
integration test files, for the monotonicity witnesses. -/
def crateFS2 : CrateFS := ⟨true, ["s"], true, ["t"], 2⟩

lemma countType_append (t : String) (l1 l2 : List Advisory) :
    countType t (l1 ++ l2) = countType t l1 + countType t l2 := by
  simp [countType, List.filter_append]

lemma countType_ite (t : String) (c : Prop) [Decidable c] (a : Advisory) :
    countType t (if c then [a] else []) = if c ∧ a.type = t then 1 else 0 := by
  by_cases hc : c
  · by_cases ht : a.type = t
    · simp [countType, List.filter_singleton, hc, ht]
    · simp [countType, List.filter_singleton, hc, ht]
  · simp [countType, hc]

lemma countType_excessive (m : Matcher) (files : List String) (name : String) :
    countType "excessive-clones" (optSuggestions m files name)
      = if 50 < count_patterns m files clonePattern then 1 else 0 := by
  unfold optSuggestions
  rw [countType_append, countType_append, countType_append, countType_append, countType_append,
      countType_ite, countType_ite, countType_ite, countType_ite, countType_ite, countType_ite]
  simp

lemma countType_inline (m : Matcher) (files : List String) (name : String) :
    countType "inline-objects" (optSuggestions m files name)
      = if strContains (pyLower name) "ui" = true ∧ 50 < count_patterns m files inlineObjectsPattern
        then 1 else 0 := by
  unfold optSuggestions
  rw [countType_append, countType_append, countType_append, countType_append, countType_append,
      countType_ite, countType_ite, countType_ite, countType_ite, countType_ite, countType_ite]
  simp

lemma countType_untested (m : Matcher) (fs : CrateFS) :
    countType "untested-functions" (tgGaps m fs)
      = if 0 < count_in_files m fs.srcFiles pubFnPattern ∧
           2 * count_in_files m (tgTestFiles fs) testAttrPattern < count_in_files m fs.srcFiles pubFnPattern
        then 1 else 0 := by
  unfold tgGaps
  rw [countType_append, countType_append, countType_append,
      countType_ite, countType_ite, countType_ite, countType_ite]
  simp

lemma optSuggestions_excessive_fields (m : Matcher) (files : List String) (name : String) :
    ∀ a ∈ optSuggestions m files name, a.type = "excessive-clones" →
      a.severity = "medium" ∧ a.count = some (count_patterns m files clonePattern) := by
  intro a ha hty
  simp only [optSuggestions, List.mem_append, List.mem_ite_nil_right, List.mem_singleton, or_assoc] at ha
  rcases ha with ⟨-, rfl⟩ | ⟨-, rfl⟩ | ⟨-, rfl⟩ | ⟨-, rfl⟩ | ⟨-, rfl⟩ | ⟨-, rfl⟩
  · exact ⟨rfl, rfl⟩
  · simp at hty
  · simp at hty
  · simp at hty
  · simp at hty
  · simp at hty

lemma optSuggestions_inline_fields (m : Matcher) (files : List String) (name : String) :
    ∀ a ∈ optSuggestions m files name, a.type = "inline-objects" →
      a.severity = "low" ∧ a.count = some (count_patterns m files inlineObjectsPattern) := by
  intro a ha hty
  simp only [optSuggestions, List.mem_append, List.mem_ite_nil_right, List.mem_singleton, or_assoc] at ha
  rcases ha with ⟨-, rfl⟩ | ⟨-, rfl⟩ | ⟨-, rfl⟩ | ⟨-, rfl⟩ | ⟨-, rfl⟩ | ⟨-, rfl⟩
  · simp at hty
  · simp at hty
  · simp at hty
  · simp at hty
  · exact ⟨rfl, rfl⟩
  · simp at hty

lemma tgGaps_untested_fields (m : Matcher) (fs : CrateFS) :
    ∀ a ∈ tgGaps m fs, a.type = "untested-functions" → a.severity = "high" := by
  intro a ha hty
  simp only [tgGaps, List.mem_append, List.mem_ite_nil_right, List.mem_singleton, or_assoc] at ha
  rcases ha with ⟨-, rfl⟩ | ⟨-, rfl⟩ | ⟨-, rfl⟩ | ⟨-, rfl⟩
  · exact rfl
  · simp at hty
  · simp at hty
  · simp at hty

lemma countType_stringalloc (m : Matcher) (files : List String) (name : String) :
    countType "string-allocations" (optSuggestions m files name)
      = if 100 < count_patterns m files stringAllocPattern then 1 else 0 := by
  unfold optSuggestions
  rw [countType_append, countType_append, countType_append, countType_append, countType_append,
      countType_ite, countType_ite, countType_ite, countType_ite, countType_ite, countType_ite]
  simp

lemma countType_nplusone (m : Matcher) (files : List String) (name : String) :
    countType "n+1-query" (optSuggestions m files name)
      = if 0 < count_patterns m files nPlusOnePattern then 1 else 0 := by
  unfold optSuggestions
  rw [countType_append, countType_append, countType_append, countType_append, countType_append,
      countType_ite, countType_ite, countType_ite, countType_ite, countType_ite, countType_ite]
  simp

lemma countType_memoization (m : Matcher) (files : List String) (name : String) :
    countType "missing-memoization" (optSuggestions m files name)
      = if strContains (pyLower name) "ui" = true ∧
           20 < count_patterns m files callbackPattern ∧
           4 * count_patterns m files memoizedPattern < count_patterns m files callbackPattern
        then 1 else 0 := by
  unfold optSuggestions
  rw [countType_append, countType_append, countType_append, countType_append, countType_append,
      countType_ite, countType_ite, countType_ite, countType_ite, countType_ite, countType_ite]
  simp

lemma countType_sequential (m : Matcher) (files : List String) (name : String) :
    countType "sequential-awaits" (optSuggestions m files name)
      = if 10 < count_patterns m files asyncFnPattern ∧
           count_patterns m files asyncFnPattern * 5 < count_patterns m files awaitPattern
        then 1 else 0 := by
  unfold optSuggestions
  rw [countType_append, countType_append, countType_append, countType_append, countType_append,
      countType_ite, countType_ite, countType_ite, countType_ite, countType_ite, countType_ite]
  simp

lemma countType_errortests (m : Matcher) (fs : CrateFS) :
    countType "missing-error-tests" (tgGaps m fs)
      = if 0 < count_in_files m fs.srcFiles resultPattern ∧
           3 * count_in_files m (tgTestFiles fs) errorTestPattern < count_in_files m fs.srcFiles resultPattern
        then 1 else 0 := by
  unfold tgGaps
  rw [countType_append, countType_append, countType_append,
      countType_ite, countType_ite, countType_ite, countType_ite]
  simp

lemma countType_integration (m : Matcher) (fs : CrateFS) :
    countType "missing-integration-tests" (tgGaps m fs)
      = if (if fs.testsExists then fs.testsFileCount else 0) < 3 then 1 else 0 := by
  unfold tgGaps
  rw [countType_append, countType_append, countType_append,
      countType_ite, countType_ite, countType_ite, countType_ite]
  simp

lemma countType_doctests (m : Matcher) (fs : CrateFS) :
    countType "missing-doc-tests" (tgGaps m fs)
      = if count_in_files m fs.srcFiles docTestPattern < 5 then 1 else 0 := by
  unfold tgGaps
  rw [countType_append, countType_append, countType_append,
      countType_ite, countType_ite, countType_ite, countType_ite]
  simp

lemma pos_ite_one (c : Prop) [Decidable c] : 0 < (if c then 1 else 0) ↔ c := by
  split <;> simp [*]

/-- C1 (counterexample): the claim asserts that exactly one JSON record is
appended to the results log on every invocation, in particular also when
the selected unit directory does not exist.  On the code, analyze_module
returns its failure object before the append statement, so a run on a
missing module directory appends zero records, not one. -/
theorem C1_counterexample :
    (analyze_module zeroMatcher ⟨false, []⟩ "keyrx_core").appended.length = 0 := rfl

/-- C1 (amended): for every invocation of either scanner, exactly one
JSON record is appended to the results log when the selected unit
directory exists, and no record is appended when it does not exist; the
same holds through the main skeleton for the unit it selects. -/
theorem C1_amended :
    (∀ (m : Matcher) (fs : OptModuleFS) (name : String),
       (analyze_module m fs name).appended.length = if fs.pathExists = true then 1 else 0)
    ∧ (∀ (m : Matcher) (lc : String → Nat) (fs : CrateFS) (name : String),
       (analyze_crate m lc fs name).appended.length = if fs.crateExists = true then 1 else 0)
    ∧ (∀ (m : Matcher) (env : String → OptModuleFS) (st : OptState) (name : String)
         (run : OptRun) (saved : OptState) (code : Nat),
       optMain m env st = .completed name run saved code →
       run.appended.length = if (env name).pathExists = true then 1 else 0)
    ∧ (∀ (m : Matcher) (lc : String → Nat) (env : String → CrateFS) (st : TgState) (name : String)
         (run : TgRun) (saved : TgState) (code : Nat),
       tgMain m lc env st = .completed name run saved code →
       run.appended.length = if (env name).crateExists = true then 1 else 0) := by
  have h1 : ∀ (m : Matcher) (fs : OptModuleFS) (name : String),
      (analyze_module m fs name).appended.length = if fs.pathExists = true then 1 else 0 := by
    intro m fs name
    obtain ⟨pe, files⟩ := fs
    cases pe <;> simp [analyze_module]
  have h2 : ∀ (m : Matcher) (lc : String → Nat) (fs : CrateFS) (name : String),
      (analyze_crate m lc fs name).appended.length = if fs.crateExists = true then 1 else 0 := by
    intro m lc fs name
    obtain ⟨ce, sf, te, tf, tc⟩ := fs
    cases ce <;> simp [analyze_crate]
  refine ⟨h1, h2, ?_, ?_⟩
  · intro m env st name run saved code h
    simp only [optMain] at h
    split at h
    · exact absurd h (by simp)
    · rename_i nm heq
      injection h with e1 e2 e3 e4
      subst e1
      subst e2
      exact h1 m (env nm) nm
  · intro m lc env st name run saved code h
    simp only [tgMain] at h
    split at h
    · exact absurd h (by simp)
    · rename_i nm heq
      injection h with e1 e2 e3 e4
      subst e1
      subst e2
      exact h2 m lc (env nm) nm

/-- Witness for C1_amended: a run on an existing empty module directory
appends one record, a run on an existing empty crate directory appends
one record, and the analysis of the missing module that the first
invocation of the Optimization Scanner selects appends none. -/
theorem C1_witness :
    (analyze_module zeroMatcher ⟨true, []⟩ "keyrx_core").appended.length = 1 ∧
    (analyze_crate zeroMatcher zeroLines ⟨true, [], true, [], 0⟩ "keyrx_core").appended.length = 1 ∧
    (analyze_module zeroMatcher (missingEnv "keyrx_core") "keyrx_core").appended.length = 0 := by
  refine ⟨?_, ?_, ?_⟩
  · have h := C1_amended.1 zeroMatcher ⟨true, []⟩ "keyrx_core"
    simpa using h
  · have h := C1_amended.2.1 zeroMatcher zeroLines ⟨true, [], true, [], 0⟩ "keyrx_core"
    simpa using h
  · have h := C1_amended.2.2.1 zeroMatcher missingEnv initialOptState "keyrx_core"
      (analyze_module zeroMatcher (missingEnv "keyrx_core") "keyrx_core")
      ⟨1, ["keyrx_core"]⟩ 1 rfl
    simpa [missingEnv] using h

/-- C2 (counterexample): the claim asserts that the inline-objects rule
carries no unit-name qualification.  On the code the rule sits inside the
React-specific block guarded by the name containing "ui": a module named
keyrx_core measuring 51 inline objects (above the threshold 50) emits no
inline-objects advisory at all. -/
theorem C2_counterexample :
    countType "inline-objects" (analyze_module inlineMatcher ⟨true, ["f"]⟩ "keyrx_core").suggestions = 0
    ∧ count_patterns inlineMatcher ["f"] inlineObjectsPattern = 51 := ⟨rfl, rfl⟩

/-- C2 (amended): the inline-objects rule applies only to units whose
lowercased name contains "ui"; for such a unit one inline-objects
advisory of severity low carrying the measured count is emitted exactly
when the count exceeds 50, and at 50 or below (or for any other unit)
none is emitted. -/
theorem C2_amended (m : Matcher) (fs : OptModuleFS) (name : String) (h : fs.pathExists = true) :
    countType "inline-objects" (analyze_module m fs name).suggestions
      = (if strContains (pyLower name) "ui" = true ∧ 50 < count_patterns m fs.files inlineObjectsPattern
         then 1 else 0)
    ∧ ∀ a ∈ (analyze_module m fs name).suggestions, a.type = "inline-objects" →
        a.severity = "low" ∧ a.count = some (count_patterns m fs.files inlineObjectsPattern) := by
  have hs : (analyze_module m fs name).suggestions = optSuggestions m fs.files name := by
    simp [analyze_module, h]
  rw [hs]
  exact ⟨countType_inline m fs.files name, optSuggestions_inline_fields m fs.files name⟩

/-- Witness for C2_amended: the ui module with 51 measured inline objects
emits exactly one inline-objects advisory. -/
theorem C2_witness :
    countType "inline-objects" (analyze_module inlineMatcher ⟨true, ["f"]⟩ "keyrx_ui/src").suggestions = 1 := by
  have h := (C2_amended inlineMatcher ⟨true, ["f"]⟩ "keyrx_ui/src" rfl).1
  rw [h]
  decide

/-- C3: for every run in which the selected unit directory does not
exist, the scanner returns the structured failure object with error
"Module not found" (crate-equivalent "Crate not found" for the Test-Gap
Scanner), the process exit code is 1, and the persisted rotation index is
still advanced to (index + 1) mod N. -/
theorem C3_missing_unit :
    (∀ (m : Matcher) (env : String → OptModuleFS) (st : OptState) (name : String),
       0 ≤ st.current_index → st.current_index < (MODULES.length : Int) →
       MODULES.get? st.current_index.toNat = some name →
       (env name).pathExists = false →
       optMain m env st = .completed name
         { ret := .failure name "Module not found", suggestions := [], appended := [] }
         { current_index := (st.current_index + 1) % (MODULES.length : Int),
           completed_modules :=
             if st.completed_modules.contains name then st.completed_modules
             else st.completed_modules ++ [name] }
         1)
    ∧ (∀ (m : Matcher) (lc : String → Nat) (env : String → CrateFS) (st : TgState) (name : String),
       0 ≤ st.current_index → st.current_index < (CRATES.length : Int) →
       CRATES.get? st.current_index.toNat = some name →
       (env name).crateExists = false →
       tgMain m lc env st = .completed name
         { ret := .failure name "Crate not found", gaps := [], estimatedCoverage := 0, appended := [] }
         { current_index := (st.current_index + 1) % (CRATES.length : Int),
           completed_crates :=
             if st.completed_crates.contains name then st.completed_crates
             else st.completed_crates ++ [name] }
         1) := by
  constructor
  · intro m env st name h0 hN hget hmiss
    have hclamp : ¬ ((MODULES.length : Int) ≤ st.current_index) := by omega
    have hpy : pyIndex MODULES st.current_index = some name := by
      simp only [pyIndex]
      rw [if_pos h0]
      exact hget
    have ha : analyze_module m (env name) name =
        { ret := .failure name "Module not found", suggestions := [], appended := [] } := by
      simp [analyze_module, hmiss]
    simp only [optMain]
    rw [if_neg hclamp, hpy]
    simp [ha, OptReturn.successFlag]
  · intro m lc env st name h0 hN hget hmiss
    have hclamp : ¬ ((CRATES.length : Int) ≤ st.current_index) := by omega
    have hpy : pyIndex CRATES st.current_index = some name := by
      simp only [pyIndex]
      rw [if_pos h0]
      exact hget
    have ha : analyze_crate m lc (env name) name =
        { ret := .failure name "Crate not found", gaps := [], estimatedCoverage := 0, appended := [] } := by
      simp [analyze_crate, hmiss]
    simp only [tgMain]
    rw [if_neg hclamp, hpy]
    simp [ha, TgReturn.successFlag]

/-- Witness for C3_missing_unit: the first invocation of each scanner in
an environment with no unit directories returns the failure object, exits
1 and advances the index from 0 to 1. -/
theorem C3_witness :
    optMain zeroMatcher missingEnv initialOptState = .completed "keyrx_core"
      { ret := .failure "keyrx_core" "Module not found", suggestions := [], appended := [] }
      { current_index := 1, completed_modules := ["keyrx_core"] } 1
    ∧ tgMain zeroMatcher zeroLines missingCrateEnv initialTgState = .completed "keyrx_core"
      { ret := .failure "keyrx_core" "Crate not found", gaps := [], estimatedCoverage := 0, appended := [] }
      { current_index := 1, completed_crates := ["keyrx_core"] } 1 := by
  constructor
  · exact C3_missing_unit.1 zeroMatcher missingEnv initialOptState "keyrx_core"
      (by decide) (by decide) rfl rfl
  · exact C3_missing_unit.2 zeroMatcher zeroLines missingCrateEnv initialTgState "keyrx_core"
      (by decide) (by decide) rfl rfl

/-- C4: the rotation index saved at the end of every completed run lies
in [0, N) for both scanners (and the index written by state
initialization does too), and a run that loads a corrupted state whose
index is at least N corrects it to 0 for that run: it selects the unit at
position 0 and completes, saving index 1. -/
theorem C4_invariant :
    (0 ≤ initialOptState.current_index ∧ initialOptState.current_index < (MODULES.length : Int))
    ∧ (∀ (m : Matcher) (env : String → OptModuleFS) (st : OptState) (name : String)
         (run : OptRun) (saved : OptState) (code : Nat),
       optMain m env st = .completed name run saved code →
       0 ≤ saved.current_index ∧ saved.current_index < (MODULES.length : Int))
    ∧ (0 ≤ initialTgState.current_index ∧ initialTgState.current_index < (CRATES.length : Int))
    ∧ (∀ (m : Matcher) (lc : String → Nat) (env : String → CrateFS) (st : TgState) (name : String)
         (run : TgRun) (saved : TgState) (code : Nat),
       tgMain m lc env st = .completed name run saved code →
       0 ≤ saved.current_index ∧ saved.current_index < (CRATES.length : Int))
    ∧ (∀ (m : Matcher) (env : String → OptModuleFS) (st : OptState),
       (MODULES.length : Int) ≤ st.current_index →
       ∃ run saved code, optMain m env st = .completed "keyrx_core" run saved code ∧
         saved.current_index = 1)
    ∧ (∀ (m : Matcher) (lc : String → Nat) (env : String → CrateFS) (st : TgState),
       (CRATES.length : Int) ≤ st.current_index →
       ∃ run saved code, tgMain m lc env st = .completed "keyrx_core" run saved code ∧
         saved.current_index = 1) := by
  refine ⟨⟨by decide, by decide⟩, ?_, ⟨by decide, by decide⟩, ?_, ?_, ?_⟩
  · intro m env st name run saved code h
    simp only [optMain] at h
    split at h
    · exact absurd h (by simp)
    · injection h with e1 e2 e3 e4
      subst e3
      exact ⟨Int.emod_nonneg _ (by decide), Int.emod_lt_of_pos _ (by decide)⟩
  · intro m lc env st name run saved code h
    simp only [tgMain] at h
    split at h
    · exact absurd h (by simp)
    · injection h with e1 e2 e3 e4
      subst e3
      exact ⟨Int.emod_nonneg _ (by decide), Int.emod_lt_of_pos _ (by decide)⟩
  · intro m env st hge
    simp only [optMain]
    rw [if_pos hge]
    exact ⟨_, _, _, rfl, rfl⟩
  · intro m lc env st hge
    simp only [tgMain]
    rw [if_pos hge]
    exact ⟨_, _, _, rfl, rfl⟩

/-- Witness for C4_invariant: a completed run of each scanner from index
0 saves an index inside [0, N), and a run loading the corrupted index 9
selects the first unit and saves index 1. -/
theorem C4_witness :
    (0 ≤ ((⟨1, ["keyrx_core"]⟩ : OptState)).current_index ∧
      ((⟨1, ["keyrx_core"]⟩ : OptState)).current_index < (MODULES.length : Int))
    ∧ (0 ≤ ((⟨1, ["keyrx_core"]⟩ : TgState)).current_index ∧
      ((⟨1, ["keyrx_core"]⟩ : TgState)).current_index < (CRATES.length : Int))
    ∧ (∃ run saved code, optMain zeroMatcher emptyEnv ⟨9, []⟩ = .completed "keyrx_core" run saved code ∧
        saved.current_index = 1)
    ∧ (∃ run saved code, tgMain zeroMatcher zeroLines emptyCrateEnv ⟨9, []⟩ = .completed "keyrx_core" run saved code ∧
        saved.current_index = 1) := by
  refine ⟨?_, ?_, ?_, ?_⟩
  · exact C4_invariant.2.1 zeroMatcher emptyEnv ⟨0, []⟩ "keyrx_core"
      (analyze_module zeroMatcher (emptyEnv "keyrx_core") "keyrx_core") ⟨1, ["keyrx_core"]⟩ 0 rfl
  · exact C4_invariant.2.2.2.1 zeroMatcher zeroLines emptyCrateEnv ⟨0, []⟩ "keyrx_core"
      (analyze_crate zeroMatcher zeroLines (emptyCrateEnv "keyrx_core") "keyrx_core") ⟨1, ["keyrx_core"]⟩ 0 rfl
  · exact C4_invariant.2.2.2.2.1 zeroMatcher emptyEnv ⟨9, []⟩ (by decide)
  · exact C4_invariant.2.2.2.2.2 zeroMatcher zeroLines emptyCrateEnv ⟨9, []⟩ (by decide)

/-- C5: rotation is strictly round-robin: for every starting index i with
0 <= i < N, N consecutive invocations of the controller select each unit
of the fixed list exactly once (the selection sequence is a permutation
of the unit list), and the index persisted after the N invocations equals
the starting index. -/
theorem C5_round_robin :
    (∀ (m : Matcher) (env : String → OptModuleFS) (st : OptState),
       0 ≤ st.current_index → st.current_index < (MODULES.length : Int) →
       ∃ names fin, optIterate m env MODULES.length st = some (names, fin) ∧
         List.Perm names MODULES ∧ fin.current_index = st.current_index)
    ∧ (∀ (m : Matcher) (lc : String → Nat) (env : String → CrateFS) (st : TgState),
       0 ≤ st.current_index → st.current_index < (CRATES.length : Int) →
       ∃ names fin, tgIterate m lc env CRATES.length st = some (names, fin) ∧
         List.Perm names CRATES ∧ fin.current_index = st.current_index) := by
  constructor
  · rintro m env ⟨i, cm⟩ h0 hN
    have hlen : (MODULES.length : Int) = 4 := by decide
    rw [hlen] at hN
    have h1 : i < 4 := hN
    have h2 : (0 : Int) ≤ i := h0
    have hi : i = 0 ∨ i = 1 ∨ i = 2 ∨ i = 3 := by omega
    rcases hi with rfl | rfl | rfl | rfl
    · exact ⟨_, _, rfl, by decide, rfl⟩
    · exact ⟨_, _, rfl, by decide, rfl⟩
    · exact ⟨_, _, rfl, by decide, rfl⟩
    · exact ⟨_, _, rfl, by decide, rfl⟩
  · rintro m lc env ⟨i, cm⟩ h0 hN
    have hlen : (CRATES.length : Int) = 3 := by decide
    rw [hlen] at hN
    have h1 : i < 3 := hN
    have h2 : (0 : Int) ≤ i := h0
    have hi : i = 0 ∨ i = 1 ∨ i = 2 := by omega
    rcases hi with rfl | rfl | rfl
    · exact ⟨_, _, rfl, by decide, rfl⟩
    · exact ⟨_, _, rfl, by decide, rfl⟩
    · exact ⟨_, _, rfl, by decide, rfl⟩

/-- Witness for C5_round_robin: from starting index 2 the Optimization
Scanner visits a permutation of its module list in 4 runs and returns to
index 2, and from starting index 1 the Test-Gap Scanner visits a
permutation of its crate list in 3 runs and returns to index 1. -/
theorem C5_witness :
    (∃ names fin, optIterate zeroMatcher emptyEnv MODULES.length ⟨2, []⟩ = some (names, fin) ∧
       List.Perm names MODULES ∧ fin.current_index = (⟨2, []⟩ : OptState).current_index)
    ∧ (∃ names fin, tgIterate zeroMatcher zeroLines emptyCrateEnv CRATES.length ⟨1, []⟩ = some (names, fin) ∧
       List.Perm names CRATES ∧ fin.current_index = (⟨1, []⟩ : TgState).current_index) := by
  constructor
  · exact C5_round_robin.1 zeroMatcher emptyEnv ⟨2, []⟩ (by decide) (by decide)
  · exact C5_round_robin.2 zeroMatcher zeroLines emptyCrateEnv ⟨1, []⟩ (by decide) (by decide)

/-- C6: the coverage estimate of the Test-Gap Scanner equals
floor(test_lines * 100 / source_lines) whenever source_lines > 0 and
equals 0 when source_lines = 0, with no division failure; in particular
estimatedCoverage 0 t = 0 for every t and estimatedCoverage 100 50 = 50;
and analyze_crate records exactly this function of its measured line
counts. -/
theorem C6_coverage :
    (∀ t : Nat, estimatedCoverage 0 t = 0)
    ∧ estimatedCoverage 100 50 = 50
    ∧ (∀ s t : Nat, 0 < s → estimatedCoverage s t = t * 100 / s)
    ∧ (∀ (m : Matcher) (lc : String → Nat) (fs : CrateFS) (name : String),
        fs.crateExists = true →
        (analyze_crate m lc fs name).estimatedCoverage
          = estimatedCoverage (tgSourceLines lc fs) (tgTestLines lc fs)) := by
  refine ⟨fun t => rfl, rfl, fun s t hs => if_pos hs, ?_⟩
  intro m lc fs name h
  simp [analyze_crate, h]

/-- Witness for C6_coverage: the floor-division branch at source 100 and
test 50, and the coverage field of a concrete successful analysis. -/
theorem C6_witness :
    estimatedCoverage 100 50 = 50 * 100 / 100
    ∧ (analyze_crate zeroMatcher zeroLines ⟨true, [], true, [], 0⟩ "keyrx_core").estimatedCoverage
        = estimatedCoverage (tgSourceLines zeroLines ⟨true, [], true, [], 0⟩)
            (tgTestLines zeroLines ⟨true, [], true, [], 0⟩) := by
  constructor
  · exact C6_coverage.2.2.1 100 50 (by decide)
  · exact C6_coverage.2.2.2 zeroMatcher zeroLines ⟨true, [], true, [], 0⟩ "keyrx_core" rfl

/-- C7: the untested-functions rule of the Test-Gap Scanner emits exactly
one gap, of severity high, when the public-function count is positive and
the test count is below half the public-function count (exact rational
comparison), and no such gap otherwise. -/
theorem C7_untested (m : Matcher) (lc : String → Nat) (fs : CrateFS) (name : String)
    (h : fs.crateExists = true) :
    countType "untested-functions" (analyze_crate m lc fs name).gaps
      = (if 0 < count_in_files m fs.srcFiles pubFnPattern ∧
            2 * count_in_files m (tgTestFiles fs) testAttrPattern < count_in_files m fs.srcFiles pubFnPattern
         then 1 else 0)
    ∧ ∀ a ∈ (analyze_crate m lc fs name).gaps, a.type = "untested-functions" → a.severity = "high" := by
  have hg : (analyze_crate m lc fs name).gaps = tgGaps m fs := by
    simp [analyze_crate, h]
  rw [hg]
  exact ⟨countType_untested m fs, tgGaps_untested_fields m fs⟩

/-- Witness for C7_untested: a crate with 10 public functions and 2 tests
yields exactly one untested-functions gap; with 10 public functions and 6
tests it yields none. -/
theorem C7_witness :
    countType "untested-functions" (analyze_crate tgMatcherA zeroLines crateFS1 "keyrx_core").gaps = 1
    ∧ countType "untested-functions" (analyze_crate tgMatcherB zeroLines crateFS1 "keyrx_core").gaps = 0 := by
  constructor
  · have h := (C7_untested tgMatcherA zeroLines crateFS1 "keyrx_core" rfl).1
    rw [h]
    decide
  · have h := (C7_untested tgMatcherB zeroLines crateFS1 "keyrx_core" rfl).1
    rw [h]
    decide

/-- C8: the excessive-clones rule emits exactly one advisory, of severity
medium and carrying the measured count, when and only when the clone
count exceeds 50; and every threshold rule of both scanners is monotonic
in its measured count, in the direction the rule tests: a rule firing
above its threshold keeps firing when the measured count grows (the other
measured counts held in the same relation), and a rule firing below its
threshold keeps firing when the measured count shrinks. -/
theorem C8_clones :
    (∀ (m : Matcher) (fs : OptModuleFS) (name : String), fs.pathExists = true →
       countType "excessive-clones" (analyze_module m fs name).suggestions
         = if 50 < count_patterns m fs.files clonePattern then 1 else 0)
    ∧ (∀ (m : Matcher) (fs : OptModuleFS) (name : String), fs.pathExists = true →
       ∀ a ∈ (analyze_module m fs name).suggestions, a.type = "excessive-clones" →
         a.severity = "medium" ∧ a.count = some (count_patterns m fs.files clonePattern))
    ∧ (∀ (m1 m2 : Matcher) (fs1 fs2 : OptModuleFS) (n1 n2 : String),
       fs1.pathExists = true → fs2.pathExists = true →
       count_patterns m1 fs1.files clonePattern ≤ count_patterns m2 fs2.files clonePattern →
       0 < countType "excessive-clones" (analyze_module m1 fs1 n1).suggestions →
       0 < countType "excessive-clones" (analyze_module m2 fs2 n2).suggestions)
    ∧ (∀ (m1 m2 : Matcher) (fs1 fs2 : OptModuleFS) (n1 n2 : String),
       fs1.pathExists = true → fs2.pathExists = true →
       count_patterns m1 fs1.files stringAllocPattern ≤ count_patterns m2 fs2.files stringAllocPattern →
       0 < countType "string-allocations" (analyze_module m1 fs1 n1).suggestions →
       0 < countType "string-allocations" (analyze_module m2 fs2 n2).suggestions)
    ∧ (∀ (m1 m2 : Matcher) (fs1 fs2 : OptModuleFS) (n1 n2 : String),
       fs1.pathExists = true → fs2.pathExists = true →
       count_patterns m1 fs1.files nPlusOnePattern ≤ count_patterns m2 fs2.files nPlusOnePattern →
       0 < countType "n+1-query" (analyze_module m1 fs1 n1).suggestions →
       0 < countType "n+1-query" (analyze_module m2 fs2 n2).suggestions)
    ∧ (∀ (m1 m2 : Matcher) (fs1 fs2 : OptModuleFS) (n : String),
       fs1.pathExists = true → fs2.pathExists = true →
       count_patterns m1 fs1.files inlineObjectsPattern ≤ count_patterns m2 fs2.files inlineObjectsPattern →
       0 < countType "inline-objects" (analyze_module m1 fs1 n).suggestions →
       0 < countType "inline-objects" (analyze_module m2 fs2 n).suggestions)
    ∧ (∀ (m1 m2 : Matcher) (fs1 fs2 : OptModuleFS) (n : String),
       fs1.pathExists = true → fs2.pathExists = true →
       count_patterns m1 fs1.files callbackPattern ≤ count_patterns m2 fs2.files callbackPattern →
       count_patterns m2 fs2.files memoizedPattern ≤ count_patterns m1 fs1.files memoizedPattern →
       0 < countType "missing-memoization" (analyze_module m1 fs1 n).suggestions →
       0 < countType "missing-memoization" (analyze_module m2 fs2 n).suggestions)
    ∧ (∀ (m1 m2 : Matcher) (fs1 fs2 : OptModuleFS) (n1 n2 : String),
       fs1.pathExists = true → fs2.pathExists = true →
       count_patterns m1 fs1.files asyncFnPattern = count_patterns m2 fs2.files asyncFnPattern →
       count_patterns m1 fs1.files awaitPattern ≤ count_patterns m2 fs2.files awaitPattern →
       0 < countType "sequential-awaits" (analyze_module m1 fs1 n1).suggestions →
       0 < countType "sequential-awaits" (analyze_module m2 fs2 n2).suggestions)
    ∧ (∀ (m1 m2 : Matcher) (lc1 lc2 : String → Nat) (fs1 fs2 : CrateFS) (n1 n2 : String),
       fs1.crateExists = true → fs2.crateExists = true →
       count_in_files m1 fs1.srcFiles pubFnPattern ≤ count_in_files m2 fs2.srcFiles pubFnPattern →
       count_in_files m2 (tgTestFiles fs2) testAttrPattern ≤ count_in_files m1 (tgTestFiles fs1) testAttrPattern →
       0 < countType "untested-functions" (analyze_crate m1 lc1 fs1 n1).gaps →
       0 < countType "untested-functions" (analyze_crate m2 lc2 fs2 n2).gaps)
    ∧ (∀ (m1 m2 : Matcher) (lc1 lc2 : String → Nat) (fs1 fs2 : CrateFS) (n1 n2 : String),
       fs1.crateExists = true → fs2.crateExists = true →
       count_in_files m1 fs1.srcFiles resultPattern ≤ count_in_files m2 fs2.srcFiles resultPattern →
       count_in_files m2 (tgTestFiles fs2) errorTestPattern ≤ count_in_files m1 (tgTestFiles fs1) errorTestPattern →
       0 < countType "missing-error-tests" (analyze_crate m1 lc1 fs1 n1).gaps →
       0 < countType "missing-error-tests" (analyze_crate m2 lc2 fs2 n2).gaps)
    ∧ (∀ (m1 m2 : Matcher) (lc1 lc2 : String → Nat) (fs1 fs2 : CrateFS) (n1 n2 : String),
       fs1.crateExists = true → fs2.crateExists = true →
       (if fs2.testsExists then fs2.testsFileCount else 0) ≤ (if fs1.testsExists then fs1.testsFileCount else 0) →
       0 < countType "missing-integration-tests" (analyze_crate m1 lc1 fs1 n1).gaps →
       0 < countType "missing-integration-tests" (analyze_crate m2 lc2 fs2 n2).gaps)
    ∧ (∀ (m1 m2 : Matcher) (lc1 lc2 : String → Nat) (fs1 fs2 : CrateFS) (n1 n2 : String),
       fs1.crateExists = true → fs2.crateExists = true →
       count_in_files m2 fs2.srcFiles docTestPattern ≤ count_in_files m1 fs1.srcFiles docTestPattern →
       0 < countType "missing-doc-tests" (analyze_crate m1 lc1 fs1 n1).gaps →
       0 < countType "missing-doc-tests" (analyze_crate m2 lc2 fs2 n2).gaps) := by
  have key : ∀ (m : Matcher) (fs : OptModuleFS) (name : String), fs.pathExists = true →
      countType "excessive-clones" (analyze_module m fs name).suggestions
        = if 50 < count_patterns m fs.files clonePattern then 1 else 0 := by
    intro m fs name h
    have hs : (analyze_module m fs name).suggestions = optSuggestions m fs.files name := by
      simp [analyze_module, h]
    rw [hs]
    exact countType_excessive m fs.files name
  have esug : ∀ (m : Matcher) (fs : OptModuleFS) (name : String), fs.pathExists = true →
      (analyze_module m fs name).suggestions = optSuggestions m fs.files name := by
    intro m fs name h
    simp [analyze_module, h]
  have egap : ∀ (m : Matcher) (lc : String → Nat) (fs : CrateFS) (name : String), fs.crateExists = true →
      (analyze_crate m lc fs name).gaps = tgGaps m fs := by
    intro m lc fs name h
    simp [analyze_crate, h]
  refine ⟨key, ?_, ?_, ?_, ?_, ?_, ?_, ?_, ?_, ?_, ?_, ?_⟩
  · intro m fs name h
    rw [esug m fs name h]
    exact optSuggestions_excessive_fields m fs.files name
  · intro m1 m2 fs1 fs2 n1 n2 h1 h2 hle hpos
    rw [key m1 fs1 n1 h1] at hpos
    rw [key m2 fs2 n2 h2]
    split at hpos
    · rename_i hgt
      rw [if_pos (lt_of_lt_of_le hgt hle)]
      exact hpos
    · exact absurd hpos (by simp)
  · intro m1 m2 fs1 fs2 n1 n2 h1 h2 hle hpos
    rw [esug m1 fs1 n1 h1, countType_stringalloc, pos_ite_one] at hpos
    rw [esug m2 fs2 n2 h2, countType_stringalloc, pos_ite_one]
    omega
  · intro m1 m2 fs1 fs2 n1 n2 h1 h2 hle hpos
    rw [esug m1 fs1 n1 h1, countType_nplusone, pos_ite_one] at hpos
    rw [esug m2 fs2 n2 h2, countType_nplusone, pos_ite_one]
    omega
  · intro m1 m2 fs1 fs2 n h1 h2 hle hpos
    rw [esug m1 fs1 n h1, countType_inline, pos_ite_one] at hpos
    rw [esug m2 fs2 n h2, countType_inline, pos_ite_one]
    obtain ⟨hui, hc⟩ := hpos
    exact ⟨hui, by omega⟩
  · intro m1 m2 fs1 fs2 n h1 h2 hcb hm hpos
    rw [esug m1 fs1 n h1, countType_memoization, pos_ite_one] at hpos
    rw [esug m2 fs2 n h2, countType_memoization, pos_ite_one]
    obtain ⟨hui, hc1, hc2⟩ := hpos
    exact ⟨hui, by omega, by omega⟩
  · intro m1 m2 fs1 fs2 n1 n2 h1 h2 heq hle hpos
    rw [esug m1 fs1 n1 h1, countType_sequential, pos_ite_one] at hpos
    rw [esug m2 fs2 n2 h2, countType_sequential, pos_ite_one]
    omega
  · intro m1 m2 lc1 lc2 fs1 fs2 n1 n2 h1 h2 hpub htest hpos
    rw [egap m1 lc1 fs1 n1 h1, countType_untested, pos_ite_one] at hpos
    rw [egap m2 lc2 fs2 n2 h2, countType_untested, pos_ite_one]
    omega
  · intro m1 m2 lc1 lc2 fs1 fs2 n1 n2 h1 h2 hres herr hpos
    rw [egap m1 lc1 fs1 n1 h1, countType_errortests, pos_ite_one] at hpos
    rw [egap m2 lc2 fs2 n2 h2, countType_errortests, pos_ite_one]
    omega
  · intro m1 m2 lc1 lc2 fs1 fs2 n1 n2 h1 h2 hle hpos
    rw [egap m1 lc1 fs1 n1 h1, countType_integration, pos_ite_one] at hpos
    rw [egap m2 lc2 fs2 n2 h2, countType_integration, pos_ite_one]
    exact lt_of_le_of_lt hle hpos
  · intro m1 m2 lc1 lc2 fs1 fs2 n1 n2 h1 h2 hle hpos
    rw [egap m1 lc1 fs1 n1 h1, countType_doctests, pos_ite_one] at hpos
    rw [egap m2 lc2 fs2 n2 h2, countType_doctests, pos_ite_one]
    exact lt_of_le_of_lt hle hpos

/-- Witness for C8_clones: one file with 51 clone-call matches yields
exactly one excessive-clones advisory of severity medium with count 51,
monotonicity transports the emission of that rule, and every other
threshold rule of both scanners fires at a concrete run just past its
threshold, transported to itself by the monotonicity parts. -/
theorem C8_witness :
    countType "excessive-clones" (analyze_module cloneMatcher51 ⟨true, ["f"]⟩ "keyrx_core").suggestions = 1
    ∧ ((⟨ "excessive-clones", "medium", some 51,
         "Found 51 .clone() calls. Review for unnecessary memory allocations."⟩ : Advisory).severity = "medium"
       ∧ (⟨ "excessive-clones", "medium", some 51,
         "Found 51 .clone() calls. Review for unnecessary memory allocations."⟩ : Advisory).count = some 51)
    ∧ 0 < countType "excessive-clones" (analyze_module cloneMatcher51 ⟨true, ["f"]⟩ "keyrx_ui/src").suggestions
    ∧ 0 < countType "string-allocations" (analyze_module monoMatcher ⟨true, ["f"]⟩ "keyrx_core").suggestions
    ∧ 0 < countType "n+1-query" (analyze_module monoMatcher ⟨true, ["f"]⟩ "keyrx_core").suggestions
    ∧ 0 < countType "inline-objects" (analyze_module monoMatcher ⟨true, ["f"]⟩ "keyrx_ui/src").suggestions
    ∧ 0 < countType "missing-memoization" (analyze_module monoMatcher ⟨true, ["f"]⟩ "keyrx_ui/src").suggestions
    ∧ 0 < countType "sequential-awaits" (analyze_module monoMatcher ⟨true, ["f"]⟩ "keyrx_core").suggestions
    ∧ 0 < countType "untested-functions" (analyze_crate tgMonoMatcher zeroLines crateFS2 "keyrx_core").gaps
    ∧ 0 < countType "missing-error-tests" (analyze_crate tgMonoMatcher zeroLines crateFS2 "keyrx_core").gaps
    ∧ 0 < countType "missing-integration-tests" (analyze_crate tgMonoMatcher zeroLines crateFS2 "keyrx_core").gaps
    ∧ 0 < countType "missing-doc-tests" (analyze_crate tgMonoMatcher zeroLines crateFS2 "keyrx_core").gaps := by
  refine ⟨?_, ?_, ?_, ?_, ?_, ?_, ?_, ?_, ?_, ?_, ?_, ?_⟩
  · have h := C8_clones.1 cloneMatcher51 ⟨true, ["f"]⟩ "keyrx_core" rfl
    rw [h]
    decide
  · exact C8_clones.2.1 cloneMatcher51 ⟨true, ["f"]⟩ "keyrx_core" rfl
      ⟨ "excessive-clones", "medium", some 51,
        "Found 51 .clone() calls. Review for unnecessary memory allocations."⟩
      (by decide) rfl
  · apply C8_clones.2.2.1 cloneMatcher51 cloneMatcher51 ⟨true, ["f"]⟩ ⟨true, ["f"]⟩
      "keyrx_core" "keyrx_ui/src" rfl rfl (le_refl _)
    have h := C8_clones.1 cloneMatcher51 ⟨true, ["f"]⟩ "keyrx_core" rfl
    rw [h]
    decide
  · exact C8_clones.2.2.2.1 monoMatcher monoMatcher ⟨true, ["f"]⟩ ⟨true, ["f"]⟩
      "keyrx_core" "keyrx_core" rfl rfl (le_refl _) (by decide)
  · exact C8_clones.2.2.2.2.1 monoMatcher monoMatcher ⟨true, ["f"]⟩ ⟨true, ["f"]⟩
      "keyrx_core" "keyrx_core" rfl rfl (le_refl _) (by decide)
  · exact C8_clones.2.2.2.2.2.1 monoMatcher monoMatcher ⟨true, ["f"]⟩ ⟨true, ["f"]⟩
      "keyrx_ui/src" rfl rfl (le_refl _) (by decide)
  · exact C8_clones.2.2.2.2.2.2.1 monoMatcher monoMatcher ⟨true, ["f"]⟩ ⟨true, ["f"]⟩
      "keyrx_ui/src" rfl rfl (le_refl _) (le_refl _) (by decide)
  · exact C8_clones.2.2.2.2.2.2.2.1 monoMatcher monoMatcher ⟨true, ["f"]⟩ ⟨true, ["f"]⟩
      "keyrx_core" "keyrx_core" rfl rfl rfl (le_refl _) (by decide)
  · exact C8_clones.2.2.2.2.2.2.2.2.1 tgMonoMatcher tgMonoMatcher zeroLines zeroLines
      crateFS2 crateFS2 "keyrx_core" "keyrx_core" rfl rfl (le_refl _) (le_refl _) (by decide)
  · exact C8_clones.2.2.2.2.2.2.2.2.2.1 tgMonoMatcher tgMonoMatcher zeroLines zeroLines
      crateFS2 crateFS2 "keyrx_core" "keyrx_core" rfl rfl (le_refl _) (le_refl _) (by decide)
  · exact C8_clones.2.2.2.2.2.2.2.2.2.2.1 tgMonoMatcher tgMonoMatcher zeroLines zeroLines
      crateFS2 crateFS2 "keyrx_core" "keyrx_core" rfl rfl (le_refl _) (by decide)
  · exact C8_clones.2.2.2.2.2.2.2.2.2.2.2 tgMonoMatcher tgMonoMatcher zeroLines zeroLines
      crateFS2 crateFS2 "keyrx_core" "keyrx_core" rfl rfl (le_refl _) (by decide)

/-- C9: pattern counting is additive across files and order-independent:
the count over the concatenation of two file enumerations (the union of
two disjoint file sets) is the sum of the counts over each, and permuting
the file order leaves the total unchanged, for the counting utility of
either scanner. -/
theorem C9_additive :
    (∀ (m : Matcher) (pat : String) (l1 l2 : List String),
       count_patterns m (l1 ++ l2) pat = count_patterns m l1 pat + count_patterns m l2 pat)
    ∧ (∀ (m : Matcher) (pat : String) (l1 l2 : List String), List.Perm l1 l2 →
       count_patterns m l1 pat = count_patterns m l2 pat)
    ∧ (∀ (m : Matcher) (pat : String) (l1 l2 : List String),
       count_in_files m (l1 ++ l2) pat = count_in_files m l1 pat + count_in_files m l2 pat)
    ∧ (∀ (m : Matcher) (pat : String) (l1 l2 : List String), List.Perm l1 l2 →
       count_in_files m l1 pat = count_in_files m l2 pat) := by
  refine ⟨?_, ?_, ?_, ?_⟩
  · intro m pat l1 l2
    simp [count_patterns]
  · intro m pat l1 l2 hp
    exact (hp.map _).sum_eq
  · intro m pat l1 l2
    simp [count_in_files]
  · intro m pat l1 l2 hp
    exact (hp.map _).sum_eq

/-- Witness for C9_additive: additivity over a concrete split and
invariance under a concrete transposition of two files. -/
theorem C9_witness :
    count_patterns zeroMatcher (["a", "b"] ++ ["c"]) clonePattern
      = count_patterns zeroMatcher ["a", "b"] clonePattern + count_patterns zeroMatcher ["c"] clonePattern
    ∧ count_patterns zeroMatcher ["a", "b"] clonePattern = count_patterns zeroMatcher ["b", "a"] clonePattern
    ∧ count_in_files zeroMatcher ["a", "b"] pubFnPattern = count_in_files zeroMatcher ["b", "a"] pubFnPattern := by
  refine ⟨C9_additive.1 zeroMatcher clonePattern ["a", "b"] ["c"],
    C9_additive.2.1 zeroMatcher clonePattern ["a", "b"] ["b", "a"] (by decide),
    C9_additive.2.2.2 zeroMatcher pubFnPattern ["a", "b"] ["b", "a"] (by decide)⟩

/-- C10: a persisted index i with -N <= i < 0 escapes the wrap-around
check (which only tests i >= N): the run selects the unit at position
N + i by Python negative indexing, completes without error, and the index
saved at the end, (i + 1) mod N under the Python remainder, again lies in
[0, N); a persisted index below -N makes the unit selection raise an
uncaught IndexError, so the run aborts and no state is saved. -/
theorem C10_negative_index :
    (∀ (m : Matcher) (env : String → OptModuleFS) (st : OptState),
       -(MODULES.length : Int) ≤ st.current_index → st.current_index < 0 →
       ∃ name run saved code, optMain m env st = .completed name run saved code ∧
         MODULES.get? (st.current_index + (MODULES.length : Int)).toNat = some name ∧
         saved.current_index = (st.current_index + 1) % (MODULES.length : Int) ∧
         0 ≤ (st.current_index + 1) % (MODULES.length : Int) ∧
         (st.current_index + 1) % (MODULES.length : Int) < (MODULES.length : Int))
    ∧ (∀ (m : Matcher) (env : String → OptModuleFS) (st : OptState),
       st.current_index < -(MODULES.length : Int) →
       optMain m env st = .indexError)
    ∧ (∀ (m : Matcher) (lc : String → Nat) (env : String → CrateFS) (st : TgState),
       -(CRATES.length : Int) ≤ st.current_index → st.current_index < 0 →
       ∃ name run saved code, tgMain m lc env st = .completed name run saved code ∧
         CRATES.get? (st.current_index + (CRATES.length : Int)).toNat = some name ∧
         saved.current_index = (st.current_index + 1) % (CRATES.length : Int) ∧
         0 ≤ (st.current_index + 1) % (CRATES.length : Int) ∧
         (st.current_index + 1) % (CRATES.length : Int) < (CRATES.length : Int))
    ∧ (∀ (m : Matcher) (lc : String → Nat) (env : String → CrateFS) (st : TgState),
       st.current_index < -(CRATES.length : Int) →
       tgMain m lc env st = .indexError) := by
  refine ⟨?_, ?_, ?_, ?_⟩
  · rintro m env ⟨i, cm⟩ h1 h2
    have hlen : (MODULES.length : Int) = 4 := by decide
    rw [hlen] at h1
    have h3 : -4 ≤ i := h1
    have h4 : i < 0 := h2
    have hi : i = -4 ∨ i = -3 ∨ i = -2 ∨ i = -1 := by omega
    rcases hi with rfl | rfl | rfl | rfl
    · exact ⟨_, _, _, _, rfl, rfl, rfl, Int.emod_nonneg _ (by decide), Int.emod_lt_of_pos _ (by decide)⟩
    · exact ⟨_, _, _, _, rfl, rfl, rfl, Int.emod_nonneg _ (by decide), Int.emod_lt_of_pos _ (by decide)⟩
    · exact ⟨_, _, _, _, rfl, rfl, rfl, Int.emod_nonneg _ (by decide), Int.emod_lt_of_pos _ (by decide)⟩
    · exact ⟨_, _, _, _, rfl, rfl, rfl, Int.emod_nonneg _ (by decide), Int.emod_lt_of_pos _ (by decide)⟩
  · intro m env st h
    simp only [optMain]
    rw [if_neg (by omega)]
    simp only [pyIndex]
    rw [if_neg (by omega), if_neg (by omega)]
  · rintro m lc env ⟨i, cm⟩ h1 h2
    have hlen : (CRATES.length : Int) = 3 := by decide
    rw [hlen] at h1
    have h3 : -3 ≤ i := h1
    have h4 : i < 0 := h2
    have hi : i = -3 ∨ i = -2 ∨ i = -1 := by omega
    rcases hi with rfl | rfl | rfl
    · exact ⟨_, _, _, _, rfl, rfl, rfl, Int.emod_nonneg _ (by decide), Int.emod_lt_of_pos _ (by decide)⟩
    · exact ⟨_, _, _, _, rfl, rfl, rfl, Int.emod_nonneg _ (by decide), Int.emod_lt_of_pos _ (by decide)⟩
    · exact ⟨_, _, _, _, rfl, rfl, rfl, Int.emod_nonneg _ (by decide), Int.emod_lt_of_pos _ (by decide)⟩
  · intro m lc env st h
    simp only [tgMain]
    rw [if_neg (by omega)]
    simp only [pyIndex]
    rw [if_neg (by omega), if_neg (by omega)]

/-- Witness for C10_negative_index: index -2 selects the module at
position 2 and completes, index -9 raises IndexError; index -1 selects
the crate at position 2 and completes, index -4 raises IndexError. -/
theorem C10_witness :
    (∃ name run saved code, optMain zeroMatcher emptyEnv ⟨-2, []⟩ = .completed name run saved code ∧
       MODULES.get? ((⟨-2, []⟩ : OptState).current_index + (MODULES.length : Int)).toNat = some name ∧
       saved.current_index = ((⟨-2, []⟩ : OptState).current_index + 1) % (MODULES.length : Int) ∧
       0 ≤ ((⟨-2, []⟩ : OptState).current_index + 1) % (MODULES.length : Int) ∧
       ((⟨-2, []⟩ : OptState).current_index + 1) % (MODULES.length : Int) < (MODULES.length : Int))
    ∧ optMain zeroMatcher emptyEnv ⟨-9, []⟩ = .indexError
    ∧ (∃ name run saved code, tgMain zeroMatcher zeroLines emptyCrateEnv ⟨-1, []⟩ = .completed name run saved code ∧
       CRATES.get? ((⟨-1, []⟩ : TgState).current_index + (CRATES.length : Int)).toNat = some name ∧
       saved.current_index = ((⟨-1, []⟩ : TgState).current_index + 1) % (CRATES.length : Int) ∧
       0 ≤ ((⟨-1, []⟩ : TgState).current_index + 1) % (CRATES.length : Int) ∧
       ((⟨-1, []⟩ : TgState).current_index + 1) % (CRATES.length : Int) < (CRATES.length : Int))
    ∧ tgMain zeroMatcher zeroLines emptyCrateEnv ⟨-4, []⟩ = .indexError := by
  refine ⟨?_, ?_, ?_, ?_⟩
  · exact C10_negative_index.1 zeroMatcher emptyEnv ⟨-2, []⟩ (by decide) (by decide)
  · exact C10_negative_index.2.1 zeroMatcher emptyEnv ⟨-9, []⟩ (by decide)
  · exact C10_negative_index.2.2.1 zeroMatcher zeroLines emptyCrateEnv ⟨-1, []⟩ (by decide) (by decide)
  · exact C10_negative_index.2.2.2 zeroMatcher zeroLines emptyCrateEnv ⟨-4, []⟩ (by decide)
